import Mathlib

/-!
# Verification of the sasoo analysis-pipeline core

Shallow embedding of the analysis pipeline and its orchestration layer:

* `services/pricing.py` (`PRICING`, `calc_cost`)
* `services/analysis_pipeline.py` (`_COST_TABLE`, `_calc_cost`,
  `_parse_json_response`, `run_full_analysis` status policy)
* `services/llm/gemini_client.py` (`_extract_json`, `GeminiClient._call` retry loop)
* `services/domain_router.py` (`DOMAINS`, `_keyword_classify`, `classify`, `override`)
* `api/analysis.py` (`_clean_llm_json`, phase executors, `_run_full_analysis`
  orchestration, `run_analysis` admission, `cancel_analysis`, progress updates)

Numbers are modelled with `ℚ` (Python float arithmetic on the short decimal
constants involved is exact at the granularity the theorems use), strings with
`String`/`List Char`, raised exceptions with `Except`, and the SQLite tables
touched by the admission check with explicit in-memory lists.
-/

namespace Sasoo

/-! ## Text helpers mirroring the Python string operations used by the code -/

/-- Whitespace characters stripped by Python `str.strip()`. -/
def isPyWs (c : Char) : Bool :=
  [' ', '\t', '\n', '\r', '\x0b', '\x0c'].contains c

/-- `str.lstrip()` on a character list. -/
def lstripL (cs : List Char) : List Char := cs.dropWhile isPyWs

/-- `str.rstrip()` on a character list. -/
def rstripL (cs : List Char) : List Char := (cs.reverse.dropWhile isPyWs).reverse

/-- `str.strip()` on a character list. -/
def stripL (cs : List Char) : List Char := rstripL (lstripL cs)

/-- `str.strip()` on a string. -/
def stripS (s : String) : String := ⟨stripL s.data⟩

/-- `str.startswith(pre)`. -/
def startsWithS (s pre : String) : Bool := pre.data.isPrefixOf s.data

/-- `str.endswith(suf)`. -/
def endsWithS (s suf : String) : Bool := suf.data.reverse.isPrefixOf s.data.reverse

/-- Drop the first `n` characters (`s[n:]`). -/
def dropS (s : String) : Nat → String := fun n => ⟨s.data.drop n⟩

/-- Drop the last `n` characters (`s[:-n]`). -/
def dropLastS (s : String) : Nat → String := fun n => ⟨(s.data.reverse.drop n).reverse⟩

/-- `str.split("\n")` on a character list. -/
def splitNl : List Char → List (List Char)
  | [] => [[]]
  | c :: rest =>
    match splitNl rest with
    | [] => [[]]
    | g :: gs => if c == '\n' then [] :: g :: gs else (c :: g) :: gs

/-- `"\n".join(lines)` on character lists. -/
def joinNl (lines : List (List Char)) : List Char :=
  (lines.intersperse ['\n']).flatten

/-- Position of the first newline, mirroring `str.index("\n")`
(`none` models the `ValueError` Python raises when absent). -/
def idxOfNl (cs : List Char) : Option Nat :=
  cs.findIdx? (fun c => c == '\n')

/-- ASCII lowering, mirroring `str.lower()` / `re.IGNORECASE` on the ASCII
keyword tables the router uses. -/
def lowerL (cs : List Char) : List Char := cs.map Char.toLower

/-- Lexicographic strict order on strings by code point, mirroring SQLite's
BINARY collation on the UTF-8 encoded `created_at` column. -/
def strLtB : List Char → List Char → Bool
  | [], [] => false
  | [], _ :: _ => true
  | _ :: _, [] => false
  | a :: as, b :: bs =>
    if a.toNat < b.toNat then true
    else if b.toNat < a.toNat then false
    else strLtB as bs

/-- Lexicographic `≤` on strings by code point. -/
def strLeB (a b : String) : Bool := !(strLtB b.data a.data)

/-- Zero-pad a number to two digits (`"%02d"`). -/
def pad2 (n : Nat) : String :=
  let s := toString n
  ⟨List.replicate (2 - s.length) '0' ++ s.data⟩

/-- Zero-pad a number to four digits (`"%04d"`, used by `"%Y"`). -/
def pad4 (n : Nat) : String :=
  let s := toString n
  ⟨List.replicate (4 - s.length) '0' ++ s.data⟩

/-- Python `round(q, n)`: round to `n` decimal places, ties to even
(banker's rounding). -/
def pyRound (q : ℚ) (n : Nat) : ℚ :=
  let scaled : ℚ := q * (10 : ℚ) ^ n
  let fl : ℤ := ⌊scaled⌋
  let frac : ℚ := scaled - (fl : ℚ)
  let r : ℤ :=
    if frac < 1 / 2 then fl
    else if 1 / 2 < frac then fl + 1
    else if fl % 2 = 0 then fl else fl + 1
  (r : ℚ) / (10 : ℚ) ^ n

/-! ## `services/pricing.py` -/

/-- `PRICING`: USD per 1M tokens, `(model, (input_rate, output_rate))`,
in source order. -/
def PRICING : List (String × ℚ × ℚ) :=
  [ ("gemini-3-flash-preview", (0.10, 0.40))
  , ("gemini-3-pro-preview", (1.25, 5.00))
  , ("gemini-3-pro-image-preview", (1.25, 5.00))
  , ("gemini-2.0-flash", (0.10, 0.40))
  , ("claude-sonnet-4-20250514", (3.00, 15.00))
  , ("claude-sonnet-4-5-20250929", (3.00, 15.00)) ]

/-- `calc_cost(model, input_tokens, output_tokens)`:
`PRICING.get(model, PRICING["gemini-3-flash-preview"])`, then
USD cost rounded to 8 decimal places. -/
def calc_cost (model : String) (input_tokens output_tokens : ℕ) : ℚ :=
  let pricing := (PRICING.lookup model).getD (0.10, 0.40)
  pyRound ((input_tokens : ℚ) / 1000000 * pricing.1
    + (output_tokens : ℚ) / 1000000 * pricing.2) 8

/-! ## `services/analysis_pipeline.py`: `_COST_TABLE` / `_calc_cost` -/

/-- `_COST_TABLE` from `analysis_pipeline.py` (a second, pipeline-local table
with different rates). -/
def _COST_TABLE : List (String × ℚ × ℚ) :=
  [ ("gemini-3-flash-preview", (0.50, 3.00))
  , ("gemini-3-pro-preview", (2.00, 12.00))
  , ("claude-sonnet-4-5-20250929", (3.00, 15.00)) ]

/-- `_calc_cost(model, tokens_in, tokens_out)` from `analysis_pipeline.py`:
`_COST_TABLE.get(model, {"input": 0.0, "output": 0.0})`, rounded to 6 places. -/
def _calc_cost (model : String) (tokens_in tokens_out : ℕ) : ℚ :=
  let rates := (_COST_TABLE.lookup model).getD (0.0, 0.0)
  pyRound ((tokens_in : ℚ) / 1000000 * rates.1
    + (tokens_out : ℚ) / 1000000 * rates.2) 6

/-! ## `services/llm/gemini_client.py`: `GeminiClient._call` retry loop -/

/-- Error classes a `generate_content` call can raise. The Python loop catches
the base `Exception`, so the kind is recorded but never inspected. -/
inductive CallErrorKind where
  | rateLimit | serverError | authError | configError | other
  deriving DecidableEq, Repr

/-- An exception raised by one `generate_content` attempt. -/
structure CallError where
  kind : CallErrorKind
  msg : String
  deriving DecidableEq, Repr

/-- Observable outcome of `GeminiClient._call`: the value returned (or the
`RuntimeError` message raised after exhaustion), the number of
`generate_content` invocations, and the `asyncio.sleep` backoffs performed. -/
structure CallTrace where
  result : Except String ℕ
  attempts : ℕ
  sleeps : List ℕ
  deriving Repr

/-- `GeminiClient._call`, lines 228-253: `for attempt in range(3)`, every
exception is caught, `await asyncio.sleep(2 ** attempt)` when `attempt < 2`,
and after three failures `RuntimeError(f"Gemini call failed after 3 attempts:
{last_error}")` is raised. `outcomes k` is what the provider call does on
attempt `k`. -/
def geminiCall (outcomes : ℕ → Except CallError ℕ) : CallTrace :=
  match outcomes 0 with
  | .ok r => ⟨.ok r, 1, []⟩
  | .error _ =>
    match outcomes 1 with
    | .ok r => ⟨.ok r, 2, [2 ^ 0]⟩
    | .error _ =>
      match outcomes 2 with
      | .ok r => ⟨.ok r, 3, [2 ^ 0, 2 ^ 1]⟩
      | .error e2 =>
        ⟨.error ("Gemini call failed after 3 attempts: " ++ e2.msg), 3, [2 ^ 0, 2 ^ 1]⟩

/-! ## A JSON model standing in for Python `json.loads`

The pipeline code only branches on whether `json.loads` succeeds and on the
parsed value; this executable recursive-descent reading of the JSON grammar
(the grammar `json.loads` implements) provides both. -/

/-- Parsed JSON values (`json.loads` results). -/
inductive Json where
  | null
  | bool (b : Bool)
  | num (q : ℚ)
  | str (s : String)
  | arr (elems : List Json)
  | obj (fields : List (String × Json))

/-- Parse failures, mirroring `json.JSONDecodeError` (whose `str(exc)` is
always a non-empty message). -/
inductive JsonErr where
  | expectingValue
  | unterminatedString
  | invalidEscape
  | expectingColon
  | expectingCommaOrEnd
  | expectingPropertyName
  | extraData
  | depthExceeded
  deriving DecidableEq, Repr

/-- The `str(exc)` text of a decode error. -/
def JsonErr.message : JsonErr → String
  | .expectingValue => "Expecting value"
  | .unterminatedString => "Unterminated string"
  | .invalidEscape => "Invalid escape"
  | .expectingColon => "Expecting colon delimiter"
  | .expectingCommaOrEnd => "Expecting comma delimiter"
  | .expectingPropertyName => "Expecting property name enclosed in double quotes"
  | .extraData => "Extra data"
  | .depthExceeded => "Maximum recursion depth exceeded"

/-- JSON insignificant whitespace (space, tab, newline, carriage return). -/
def jsonWs (c : Char) : Bool := [' ', '\t', '\n', '\r'].contains c

/-- Skip insignificant whitespace. -/
def skipWs (cs : List Char) : List Char := cs.dropWhile jsonWs

/-- Hex digit value. -/
def hexVal (c : Char) : Option Nat :=
  if '0' ≤ c ∧ c ≤ '9' then some (c.toNat - '0'.toNat)
  else if 'a' ≤ c ∧ c ≤ 'f' then some (c.toNat - 'a'.toNat + 10)
  else if 'A' ≤ c ∧ c ≤ 'F' then some (c.toNat - 'A'.toNat + 10)
  else none

/-- Parse the body of a JSON string (the opening quote already consumed),
returning the decoded characters and the rest of the input. -/
def parseStrChars : List Char → Except JsonErr (List Char × List Char)
  | [] => .error .unterminatedString
  | '"' :: rest => .ok ([], rest)
  | '\\' :: rest =>
    match rest with
    | [] => .error .unterminatedString
    | e :: rest2 =>
      if e == 'u' then
        match rest2 with
        | h1 :: h2 :: h3 :: h4 :: rest3 =>
          match hexVal h1, hexVal h2, hexVal h3, hexVal h4 with
          | some v1, some v2, some v3, some v4 =>
            match parseStrChars rest3 with
            | .ok (cs, rem) =>
              .ok (Char.ofNat (((v1 * 16 + v2) * 16 + v3) * 16 + v4) :: cs, rem)
            | .error er => .error er
          | _, _, _, _ => .error .invalidEscape
        | _ => .error .unterminatedString
      else
        match
          (if e == '"' then some '"'
           else if e == '\\' then some '\\'
           else if e == '/' then some '/'
           else if e == 'b' then some '\x08'
           else if e == 'f' then some '\x0c'
           else if e == 'n' then some '\n'
           else if e == 'r' then some '\r'
           else if e == 't' then some '\t'
           else none) with
        | some c =>
          match parseStrChars rest2 with
          | .ok (cs, rem) => .ok (c :: cs, rem)
          | .error er => .error er
        | none => .error .invalidEscape
  | c :: rest =>
    match parseStrChars rest with
    | .ok (cs, rem) => .ok (c :: cs, rem)
    | .error er => .error er

/-- Digits prefix value: `(value, digit count, rest)`. -/
def parseDigits (cs : List Char) : ℕ × ℕ × List Char :=
  let digits := cs.takeWhile Char.isDigit
  let rest := cs.dropWhile Char.isDigit
  (digits.foldl (fun acc c => acc * 10 + (c.toNat - '0'.toNat)) 0, digits.length, rest)

/-- Parse a JSON number (first char is `-` or a digit). -/
def parseNum (cs : List Char) : Except JsonErr (ℚ × List Char) :=
  let (neg, cs1) := match cs with
    | '-' :: t => (true, t)
    | _ => (false, cs)
  let (ip, ipLen, cs2) := parseDigits cs1
  if ipLen = 0 then .error .expectingValue
  else
    let (fracQ, cs3) : ℚ × List Char := match cs2 with
      | '.' :: t =>
        let (fv, fl, r) := parseDigits t
        ((fv : ℚ) / (10 : ℚ) ^ fl, r)
      | _ => (0, cs2)
    let (expZ, cs4) : ℤ × List Char := match cs3 with
      | 'e' :: t | 'E' :: t =>
        (match t with
         | '-' :: t2 => let (ev, _, r) := parseDigits t2; (-(ev : ℤ), r)
         | '+' :: t2 => let (ev, _, r) := parseDigits t2; ((ev : ℤ), r)
         | _ => let (ev, _, r) := parseDigits t; ((ev : ℤ), r))
      | _ => (0, cs3)
    let base : ℚ := (ip : ℚ) + fracQ
    let mag : ℚ := if 0 ≤ expZ then base * (10 : ℚ) ^ expZ.toNat
      else base / (10 : ℚ) ^ (-expZ).toNat
    .ok ((if neg then -mag else mag), cs4)

mutual

/-- Parse one JSON value. `fuel` bounds the recursion depth; the top-level
entry point supplies more fuel than any input of its length can consume. -/
def parseVal (fuel : ℕ) (cs : List Char) : Except JsonErr (Json × List Char) :=
  match fuel with
  | 0 => .error .depthExceeded
  | fuel + 1 =>
    match skipWs cs with
    | [] => .error .expectingValue
    | c :: rest =>
      if c == 'n' then
        if ['u', 'l', 'l'].isPrefixOf rest then .ok (.null, rest.drop 3)
        else .error .expectingValue
      else if c == 't' then
        if ['r', 'u', 'e'].isPrefixOf rest then .ok (.bool true, rest.drop 3)
        else .error .expectingValue
      else if c == 'f' then
        if ['a', 'l', 's', 'e'].isPrefixOf rest then .ok (.bool false, rest.drop 4)
        else .error .expectingValue
      else if c == '"' then
        match parseStrChars rest with
        | .ok (scs, rem) => .ok (.str ⟨scs⟩, rem)
        | .error er => .error er
      else if c == '[' then
        match skipWs rest with
        | ']' :: rem => .ok (.arr [], rem)
        | _ =>
          match parseItems fuel rest with
          | .ok (xs, rem) => .ok (.arr xs, rem)
          | .error er => .error er
      else if c == '{' then
        match skipWs rest with
        | '}' :: rem => .ok (.obj [], rem)
        | _ =>
          match parseFields fuel rest with
          | .ok (kvs, rem) => .ok (.obj kvs, rem)
          | .error er => .error er
      else if c == '-' ∨ c.isDigit then
        match parseNum (c :: rest) with
        | .ok (q, rem) => .ok (.num q, rem)
        | .error er => .error er
      else .error .expectingValue

/-- Parse `value (, value)* ]` inside an array. -/
def parseItems (fuel : ℕ) (cs : List Char) : Except JsonErr (List Json × List Char) :=
  match fuel with
  | 0 => .error .depthExceeded
  | fuel + 1 =>
    match parseVal fuel cs with
    | .error er => .error er
    | .ok (v, rest) =>
      match skipWs rest with
      | ']' :: rem => .ok ([v], rem)
      | ',' :: rem =>
        match parseItems fuel rem with
        | .ok (xs, rem2) => .ok (v :: xs, rem2)
        | .error er => .error er
      | _ => .error .expectingCommaOrEnd

/-- Parse `"key": value (, "key": value)* }` inside an object. -/
def parseFields (fuel : ℕ) (cs : List Char) :
    Except JsonErr (List (String × Json) × List Char) :=
  match fuel with
  | 0 => .error .depthExceeded
  | fuel + 1 =>
    match skipWs cs with
    | '"' :: rest =>
      match parseStrChars rest with
      | .error er => .error er
      | .ok (kcs, rest2) =>
        match skipWs rest2 with
        | ':' :: rest3 =>
          match parseVal fuel rest3 with
          | .error er => .error er
          | .ok (v, rest4) =>
            match skipWs rest4 with
            | '}' :: rem => .ok ([(⟨kcs⟩, v)], rem)
            | ',' :: rem =>
              match parseFields fuel rem with
              | .ok (kvs, rem2) => .ok ((⟨kcs⟩, v) :: kvs, rem2)
              | .error er => .error er
            | _ => .error .expectingCommaOrEnd
        | _ => .error .expectingColon
    | _ => .error .expectingPropertyName

end

/-- `json.loads(s)`: parse a complete document, rejecting trailing data. -/
def jsonParse (s : String) : Except JsonErr Json :=
  match parseVal (2 * s.data.length + 8) s.data with
  | .error er => .error er
  | .ok (v, rest) =>
    match skipWs rest with
    | [] => .ok v
    | _ => .error .extraData

/-! ## The three fence-stripping / JSON-validation routines -/

/-- `_clean_llm_json(text)` from `api/analysis.py`: strip markdown code fences
line-wise. -/
def _clean_llm_json (text : String) : String :=
  let cleaned := stripS text
  if startsWithS cleaned "```" then
    let lines := splitNl cleaned.data
    let lines1 :=
      match lines with
      | [] => lines
      | l0 :: rest => if "```".data.isPrefixOf (stripL l0) then rest else lines
    let lines2 :=
      if lines1 ≠ [] ∧ stripL (lines1.getLastD []) = "```".data then lines1.dropLast
      else lines1
    stripS ⟨joinNl lines2⟩
  else cleaned

/-- Result of the JSON-validation step shared by the four API phase executors
(`_run_screening` / `_run_visual` / `_run_recipe` / `_run_deep_dive` in
`api/analysis.py`): the payload that ends up stored (`result["text"]` /
`json.dumps({"_raw": ..., "_parse_error": ...})`), the parse error if any,
and the phase status the executor then records. -/
structure PhaseParseOutcome where
  storedPayload : Json
  parseErrorMsg : Option String
  phaseStatus : String

/-- The validation tail of an API phase executor: clean fences, try
`json.loads`; on failure store `{"_raw": cleaned, "_parse_error": str(exc)}`;
either way the executor proceeds and marks the phase `completed`. -/
def apiValidateResponse (text : String) : PhaseParseOutcome :=
  let cleaned := _clean_llm_json text
  match jsonParse cleaned with
  | .ok j => ⟨j, none, "completed"⟩
  | .error e =>
    ⟨.obj [("_raw", .str cleaned), ("_parse_error", .str e.message)],
      some e.message, "completed"⟩

/-- The fence-stripping stage of `AnalysisPipeline._parse_json_response`
(`analysis_pipeline.py` lines 840-848). -/
def pipelineStrip (text : String) : String :=
  let t1 := stripS text
  let t2 :=
    if startsWithS t1 "```json" then dropS t1 7
    else if startsWithS t1 "```" then dropS t1 3
    else t1
  let t3 := if endsWithS t2 "```" then dropLastS t2 3 else t2
  stripS t3

/-- `AnalysisPipeline._parse_json_response` (string branch): strip fences,
`json.loads`; on `JSONDecodeError` return `{"raw_response": text}` — note the
fallback carries no parse-error message. -/
def _parse_json_response (text : String) : Json :=
  let stripped := pipelineStrip text
  match jsonParse stripped with
  | .ok j => j
  | .error _ => .obj [("raw_response", .str stripped)]

/-- The fence-stripping stage of `_extract_json` (`gemini_client.py`):
`none` models the `ValueError` that `cleaned.index("\n")` raises when a
fenced response has no newline. -/
def extractStrip (text : String) : Option String :=
  let cleaned := stripS text
  match (if startsWithS cleaned "```" then
           match idxOfNl cleaned.data with
           | none => none
           | some i => some (dropS cleaned (i + 1))
         else some cleaned) with
  | none => none
  | some c1 =>
    let c2 := if endsWithS c1 "```" then dropLastS c1 3 else c1
    some (stripS c2)

/-- `_extract_json(text)` from `gemini_client.py`: strip fences, `json.loads`;
on `JSONDecodeError` return `{"_raw": text, "_parse_error": str(exc)}` (with
the original, unstripped text). `.error` models the uncaught `ValueError`
from `cleaned.index("\n")`. -/
def _extract_json (text : String) : Except String Json :=
  match extractStrip text with
  | none => .error "substring not found"
  | some cleaned =>
    match jsonParse cleaned with
    | .ok j => .ok j
    | .error e => .ok (.obj [("_raw", .str text), ("_parse_error", .str e.message)])

/-! ## `services/domain_router.py` -/

/-- A `\w` character for the compiled `\b`-delimited keyword patterns. -/
def isWordChar (c : Char) : Bool := c.isAlphanum || c == '_'

/-- Is there a match of keyword `kw` at the head of `cs`, with `\b` word
boundaries on both sides? `prev` is the character just before this position
(`none` at the start of the text). Every keyword in the router tables starts
and ends with a word character, so `\b` reduces to the neighbour checks. -/
def matchAt (kw : List Char) (prev : Option Char) (cs : List Char) : Bool :=
  kw.isPrefixOf cs
    && (match prev with | none => true | some p => !isWordChar p)
    && (match cs.drop kw.length with | [] => true | c :: _ => !isWordChar c)

/-- Count the non-overlapping, leftmost-first matches of `kw` in `cs`
(the scan `re.findall` performs). The `fuel` counter makes the recursion
structural; each step consumes at least one character, so `cs.length` fuel
never runs out. -/
def countFromAux (fuel : ℕ) (kw : List Char) (prev : Option Char)
    (cs : List Char) : ℕ :=
  match fuel, cs with
  | 0, _ => 0
  | _, [] => 0
  | fuel + 1, c :: rest =>
    if matchAt kw prev (c :: rest) then
      1 + countFromAux fuel kw (some (kw.getLastD c)) (rest.drop (kw.length - 1))
    else
      countFromAux fuel kw (some c) rest

/-- Count the non-overlapping matches of `kw` in `cs`. -/
def countFrom (kw : List Char) (prev : Option Char) (cs : List Char) : ℕ :=
  countFromAux cs.length kw prev cs

/-- `len(pattern.findall(text))` for the compiled pattern
`\b + re.escape(kw) + \b` with `re.IGNORECASE` (both sides lowered; the
keyword tables are ASCII). -/
def findallCount (kw text : String) : ℕ :=
  countFrom (lowerL kw.data) none (lowerL text.data)

/-- `DomainSpec` from `domain_router.py` (the `reasoning` log strings of
results are presentation-only and omitted from the embedding). -/
structure DomainSpec where
  name : String
  display_name : String
  display_name_ko : String
  agent_name : String
  keywords : List String
  weighted_keywords : List String

/-- `DOMAINS`, in source (dict-insertion) order. -/
def DOMAINS : List (String × DomainSpec) :=
  [ ("optics",
     { name := "optics", display_name := "Optics & Photonics",
       display_name_ko := "광학/포토닉스", agent_name := "photon",
       keywords :=
         [ "wavelength", "laser", "optical", "photon", "lens",
           "aperture", "fso", "turbulence", "diffraction", "refractive",
           "beam", "spectroscopy", "fiber", "coherence", "polarization" ],
       weighted_keywords :=
         [ "free-space optical", "adaptive optics", "beam propagation",
           "wavefront", "interferometer", "spectrometer",
           "photonic crystal", "optical fiber", "laser diode",
           "focal length", "numerical aperture", "fresnel",
           "scintillation", "beam quality", "m-squared",
           "mode-locked", "femtosecond", "photoluminescence" ] })
  , ("bio",
     { name := "bio", display_name := "Biology & Biochemistry",
       display_name_ko := "생물/생화학", agent_name := "cell",
       keywords :=
         [ "cell", "protein", "gene", "dna", "rna",
           "enzyme", "tissue", "antibody", "metabolite", "sequencing" ],
       weighted_keywords :=
         [ "crispr", "western blot", "pcr", "immunofluorescence",
           "cell culture", "gene expression", "protein folding",
           "genome", "transcriptome", "proteome", "metabolome",
           "in vivo", "in vitro", "apoptosis", "proliferation",
           "plasmid", "transfection", "knock-out" ] })
  , ("ai_ml",
     { name := "ai_ml", display_name := "AI & Machine Learning",
       display_name_ko := "인공지능/머신러닝", agent_name := "neural",
       keywords :=
         [ "neural network", "deep learning", "transformer", "attention",
           "gradient", "backpropagation", "loss function", "dataset",
           "training" ],
       weighted_keywords :=
         [ "convolutional neural network", "recurrent neural network",
           "generative adversarial", "reinforcement learning",
           "fine-tuning", "pre-training", "language model",
           "batch normalization", "dropout", "embedding",
           "cross-entropy", "softmax", "bert", "gpt",
           "diffusion model", "variational autoencoder" ] })
  , ("ee",
     { name := "ee", display_name := "Electrical Engineering",
       display_name_ko := "전기/전자공학", agent_name := "circuit",
       keywords :=
         [ "semiconductor", "transistor", "cmos", "voltage", "current",
           "circuit", "impedance", "power" ],
       weighted_keywords :=
         [ "mosfet", "finfet", "gate oxide", "doping",
           "integrated circuit", "vlsi", "analog circuit",
           "digital circuit", "signal processing", "amplifier",
           "oscillator", "power converter", "pcb",
           "electromigration", "threshold voltage", "leakage current" ] }) ]

/-- `DomainResult` (without the free-text `reasoning` field). -/
structure DomainResult where
  domain : String
  display_name : String
  display_name_ko : String
  agent_name : String
  confidence : ℚ
  method : String
  needs_confirmation : Bool
  keyword_matches : List String
  all_scores : List (String × ℚ)

/-- Score and matched-keyword list for one domain: the per-domain loop body
of `_keyword_classify` (title hits add 2 extra on top of the body count;
weighted keywords double both contributions). -/
def domainScore (spec : DomainSpec) (title abstract : String) : ℚ × List String :=
  let combined := title ++ "\n" ++ abstract
  let step1 := spec.keywords.foldl
    (fun (acc : ℚ × List String) kw =>
      let body := findallCount kw combined
      let titleHits := findallCount kw title
      let acc1 := if 0 < body then ((acc.1 + body : ℚ), acc.2 ++ [kw]) else acc
      if 0 < titleHits then ((acc1.1 + titleHits * 2 : ℚ), acc1.2) else acc1)
    ((0 : ℚ), ([] : List String))
  spec.weighted_keywords.foldl
    (fun (acc : ℚ × List String) kw =>
      let body := findallCount kw combined
      let titleHits := findallCount kw title
      let acc1 := if 0 < body then ((acc.1 + body * 2 : ℚ), acc.2 ++ [kw]) else acc
      if 0 < titleHits then ((acc1.1 + titleHits * 4 : ℚ), acc1.2) else acc1)
    step1

/-- Placeholder spec for the impossible lookup-miss branches below. -/
def DomainSpec.unknown : DomainSpec :=
  { name := "unknown", display_name := "Unknown", display_name_ko := "미분류",
    agent_name := "", keywords := [], weighted_keywords := [] }

/-- `DomainRouter._keyword_classify(title, abstract)`. -/
def _keyword_classify (title abstract : String) : DomainResult :=
  let scored := DOMAINS.map (fun kv => (kv.1, domainScore kv.2 title abstract))
  let maxScore : ℚ := (scored.map (fun x => x.2.1)).foldl max 0
  let normalized : List (String × ℚ) :=
    if 0 < maxScore then scored.map (fun x => (x.1, x.2.1 / maxScore))
    else scored.map (fun x => (x.1, (0 : ℚ)))
  let bestScore : ℚ := (normalized.map Prod.snd).foldl max 0
  let best := (normalized.find? (fun kv => kv.2 = bestScore)).getD ("optics", 0)
  let best_domain := best.1
  let matched := ((scored.find? (fun x => x.1 = best_domain)).map
    (fun x => x.2.2)).getD []
  let total_matches := matched.length
  let best_confidence :=
    if total_matches ≤ 1 then min best.2 0.4
    else if total_matches ≤ 2 then min best.2 0.6
    else best.2
  if maxScore = 0 then
    { domain := "unknown", display_name := "Unknown", display_name_ko := "미분류",
      agent_name := "", confidence := 0, method := "keyword",
      needs_confirmation := true, keyword_matches := [], all_scores := normalized }
  else
    let spec := (DOMAINS.lookup best_domain).getD DomainSpec.unknown
    { domain := best_domain, display_name := spec.display_name,
      display_name_ko := spec.display_name_ko, agent_name := spec.agent_name,
      confidence := pyRound best_confidence 3, method := "keyword",
      needs_confirmation := false, keyword_matches := matched,
      all_scores := normalized }

/-- Insert into a descending list. -/
def insertDescQ (x : ℚ) : List ℚ → List ℚ
  | [] => [x]
  | y :: ys => if y ≤ x then x :: y :: ys else y :: insertDescQ x ys

/-- `sorted(values, reverse=True)`. -/
def sortDescQ : List ℚ → List ℚ
  | [] => []
  | x :: xs => insertDescQ x (sortDescQ xs)

/-- Where `DomainRouter.classify` hands control after the keyword step:
either it returns the keyword result directly, or it falls through to
`_semantic_classify` (i.e. a semantic-classifier call is made). -/
inductive ClassifyStep where
  | keywordDirect (r : DomainResult)
  | semanticFallback (r : DomainResult)

/-- The gap between the top and second normalized keyword scores. -/
def topGap (title abstract : String) : ℚ :=
  match sortDescQ ((_keyword_classify title abstract).all_scores.map Prod.snd) with
  | s0 :: s1 :: _ => s0 - s1
  | _ => 1

/-- `DomainRouter.classify` (lines 214-243): keyword step first;
return it directly iff `confidence ≥ CONFIDENCE_THRESHOLD (0.7)` and the
top-two score gap is not below `AMBIGUITY_GAP (0.15)`; otherwise fall
through to semantic classification. -/
def classify (title abstract : String) : ClassifyStep :=
  let kr := _keyword_classify title abstract
  if 0.7 ≤ kr.confidence then
    match sortDescQ (kr.all_scores.map Prod.snd) with
    | s0 :: s1 :: _ =>
      if s0 - s1 < 0.15 then .semanticFallback kr else .keywordDirect kr
    | _ => .keywordDirect kr
  else .semanticFallback kr

/-- `DomainRouter.override(domain)`: `ValueError` (modelled as `.error`) for
an unknown key; otherwise a manual result with confidence 1.0. -/
def override (domain : String) : Except String DomainResult :=
  match DOMAINS.lookup domain with
  | none =>
    .error ("Unknown domain: " ++ domain ++ ". Valid domains: optics, bio, ai_ml, ee")
  | some spec =>
    .ok { domain := domain, display_name := spec.display_name,
          display_name_ko := spec.display_name_ko, agent_name := spec.agent_name,
          confidence := 1, method := "manual", needs_confirmation := false,
          keyword_matches := [], all_scores := [] }

/-! ## `AnalysisPipeline.run_full_analysis` status policy
(`services/analysis_pipeline.py`)

Each `_run_phase_*` method wraps its whole body in `try/except Exception`,
recording status `completed` or `error` on its `PhaseResult`; the phase
body outcome is the parameter (`.ok payload` = body completed,
`.error msg` = body raised). -/

/-- The observable part of a pipeline `PhaseResult`. -/
structure PipePhaseResult where
  phase : String
  status : String
  result : Option Json
  error_message : Option String

/-- One `_run_phase_*` call: exception caught locally, turned into an
`error` result. -/
def runPhase (phase : String) (body : Except String Json) : PipePhaseResult :=
  match body with
  | .ok j =>
    { phase := phase, status := "completed", result := some j, error_message := none }
  | .error e =>
    { phase := phase, status := "error", result := none, error_message := some e }

/-- The observable outcome of `AnalysisPipeline.run_full_analysis`. -/
structure PipelineReport where
  phases : List PipePhaseResult
  status : String
  paperStatus : String

/-- `AnalysisPipeline.run_full_analysis` (lines 220-282): run the four
phases in sequence (each with its local `try/except`), then
`status = "error"` iff every phase errored, else `"completed"`
(the `elif error_phases` partial-success branch also yields `"completed"`),
and persist the paper status accordingly. -/
def run_full_analysis (screening visual recipe deepDive : Except String Json) :
    PipelineReport :=
  let phases :=
    [ runPhase "screening" screening
    , runPhase "visual" visual
    , runPhase "recipe" recipe
    , runPhase "deep_dive" deepDive ]
  let errorPhases := phases.filter (fun p => p.status == "error")
  let status :=
    if errorPhases.length = phases.length then "error"
    else if errorPhases.length ≠ 0 then "completed"
    else "completed"
  let finalStatus := if status == "completed" then "completed" else "error"
  { phases := phases, status := status, paperStatus := finalStatus }

/-! ## `api/analysis.py`: `_run_full_analysis` background orchestrator

The API phase functions `_run_screening` .. `_run_deep_dive` have no local
`try/except` around their model calls: an exception inside one of them
propagates into the big `try` of `_run_full_analysis` and is handled by its
outer `except Exception`, which marks the paper and the run `error`.
Phase bodies are parameters `Except String Unit` (`.error` = the body
raised); the cooperative-cancellation flag values observed at the five
boundary checks are the `cancel*` parameters. -/

structure OrchInput where
  screening : Except String Unit
  visual : Except String Unit
  recipe : Except String Unit
  deepDive : Except String Unit
  cancelAfterLoad : Bool
  cancelAfterPhase12 : Bool
  cancelAfterRecipe : Bool
  cancelAfterDeepDive : Bool
  cancelAtEnd : Bool

/-- Observable outcome of one `_run_full_analysis` run: the in-memory
`overall_status`, the last `papers.status` persisted, the phases whose
bodies ran, and the phases whose executors reached their final
`status = "completed"` assignment. -/
structure OrchResult where
  overall_status : String
  paper_status : String
  executed : List String
  phaseCompleted : List String

/-- `_run_full_analysis(paper_id)` (lines 986-1140), with DB access and the
visualization internals abstracted: `asyncio.gather` runs both Screening and
Visual to completion (a raising one propagates its exception after the
sibling finishes); cancellation is checked at each phase boundary; any phase
exception reaches the outer handler which marks paper and run `error`. -/
def _run_full_analysis (inp : OrchInput) : OrchResult :=
  if inp.cancelAfterLoad then
    ⟨"cancelled", "cancelled", [], []⟩
  else
    let done12 := (if inp.screening.isOk then ["screening"] else [])
      ++ (if inp.visual.isOk then ["visual"] else [])
    match inp.screening, inp.visual with
    | .error _, _ => ⟨"error", "error", ["screening", "visual"], done12⟩
    | _, .error _ => ⟨"error", "error", ["screening", "visual"], done12⟩
    | .ok _, .ok _ =>
      if inp.cancelAfterPhase12 then
        ⟨"cancelled", "cancelled", ["screening", "visual"], done12⟩
      else
        match inp.recipe with
        | .error _ => ⟨"error", "error", ["screening", "visual", "recipe"], done12⟩
        | .ok _ =>
          let done3 := done12 ++ ["recipe"]
          if inp.cancelAfterRecipe then
            ⟨"cancelled", "cancelled", ["screening", "visual", "recipe"], done3⟩
          else
            match inp.deepDive with
            | .error _ =>
              ⟨"error", "error", ["screening", "visual", "recipe", "deep_dive"], done3⟩
            | .ok _ =>
              let done4 := done3 ++ ["deep_dive"]
              if inp.cancelAfterDeepDive then
                ⟨"cancelled", "cancelled",
                  ["screening", "visual", "recipe", "deep_dive"], done4⟩
              else
                -- `_run_visualizations` runs inside its own try/except and
                -- never aborts the run.
                let ex5 := ["screening", "visual", "recipe", "deep_dive",
                  "visualization"]
                if inp.cancelAtEnd then ⟨"cancelled", "cancelled", ex5, done4⟩
                else ⟨"completed", "completed", ex5, done4⟩

/-! ## `api/analysis.py`: `run_analysis` admission (budget / conflict)

The SQLite `analysis_results` table rows relevant to the admission check. -/

structure LedgerRow where
  paper_id : ℕ
  phase : String
  cost_usd : Option ℚ
  created_at : String

/-- The server state the `run_analysis` endpoint reads and writes. -/
structure ServerState where
  papers : List ℕ
  runningEntry : Option String
  rows : List LedgerRow
  monthly_limit : ℚ
  year : ℕ
  month : ℕ

/-- HTTP-level responses of `POST /api/analysis/{paper_id}/run`. -/
inductive RunResponse where
  | notFound404
  | conflict409
  | budgetExceeded402
  | accepted202
  deriving DecidableEq, Repr

structure RunOutcome where
  response : RunResponse
  state : ServerState
  taskScheduled : Bool

/-- `f"{current_month}-01"`. -/
def month_start (y m : ℕ) : String := pad4 y ++ "-" ++ pad2 m ++ "-01"

/-- The exclusive upper bound of the month range (lines 1181-1184). -/
def month_end (y m : ℕ) : String :=
  if m = 12 then pad4 (y + 1) ++ "-01-01"
  else pad4 y ++ "-" ++ pad2 (m + 1) ++ "-01"

/-- `SELECT cost_usd FROM analysis_results WHERE created_at >= ? AND
created_at < ? AND phase != 'error'` summed with `r.get("cost_usd") or 0.0`. -/
def current_spending (s : ServerState) : ℚ :=
  ((s.rows.filter (fun r =>
      strLeB (month_start s.year s.month) r.created_at
        && strLtB r.created_at.data (month_end s.year s.month).data
        && r.phase ≠ "error")).map
    (fun r => r.cost_usd.getD 0)).sum

/-- `run_analysis(paper_id)` (lines 1147-1211): 404 for an unknown paper;
409 if an in-memory entry is still `running` (checked under the lock, which
also clears any stale entry); 402 if the current-month spending has reached
the limit, before any row is touched; otherwise delete the paper's previous
results and schedule `_run_full_analysis` as a background task (the new run
registers itself only once that task starts). -/
def run_analysis (pid : ℕ) (s : ServerState) : RunOutcome :=
  if pid ∉ s.papers then ⟨.notFound404, s, false⟩
  else if s.runningEntry = some "running" then ⟨.conflict409, s, false⟩
  else
    let s1 := { s with runningEntry := none }
    if s1.monthly_limit ≤ current_spending s1 then ⟨.budgetExceeded402, s1, false⟩
    else
      let s2 := { s1 with rows := s1.rows.filter (fun r => r.paper_id ≠ pid) }
      ⟨.accepted202, s2, true⟩

/-! ## `api/analysis.py`: `cancel_analysis` -/

/-- `cancel_analysis(paper_id)` (lines 1214-1232): 200 when a cancellation
event exists (sets it) or when an in-memory entry is still `running`;
otherwise 404. -/
def cancel_analysis (hasCancelEvent : Bool) (runningEntry : Option String) :
    ℕ × String :=
  if hasCancelEvent then (200, "cancelling")
  else
    match runningEntry with
    | some st => if st = "running" then (200, "cancelled") else (404, "not_found")
    | none => (404, "not_found")

/-! ## The two racing `start` calls (C2)

Atomic steps of two concurrent `POST /run` calls for the same document.
`admit` is the endpoint body: the locked registry check/clear followed by
scheduling the background task; `register` is the first action of the
scheduled `_run_full_analysis` task, which inserts the `running` entry into
`_running_analyses` under the same lock. The lock makes each step atomic,
but nothing makes the pair atomic. -/

inductive CallOutcome where
  | pending
  | accepted
  | rejected409
  deriving DecidableEq, Repr

structure TwoStartState where
  reg : Option String
  a : CallOutcome
  aRegistered : Bool
  b : CallOutcome
  bRegistered : Bool
  deriving DecidableEq, Repr

inductive StartAct where
  | admitA | admitB | regA | regB
  deriving DecidableEq, Repr

/-- One atomic step of the two-caller system. `admit` mirrors lines
1157-1169 (reject 409 iff the registered entry is `running`, else clear any
stale entry and accept); `register` mirrors lines 991-999 (the background
task stores its `running` status). -/
def stepStart (s : TwoStartState) (act : StartAct) : TwoStartState :=
  match act with
  | .admitA =>
    if s.a = .pending then
      if s.reg = some "running" then { s with a := .rejected409 }
      else { s with a := .accepted, reg := none }
    else s
  | .admitB =>
    if s.b = .pending then
      if s.reg = some "running" then { s with b := .rejected409 }
      else { s with b := .accepted, reg := none }
    else s
  | .regA =>
    if s.a = .accepted ∧ ¬s.aRegistered then
      { s with reg := some "running", aRegistered := true }
    else s
  | .regB =>
    if s.b = .accepted ∧ ¬s.bRegistered then
      { s with reg := some "running", bRegistered := true }
    else s

/-- Run a sequence of atomic steps from the idle state (no entry registered,
both calls pending). -/
def runStartTrace (acts : List StartAct) : TwoStartState :=
  acts.foldl stepStart ⟨none, .pending, false, .pending, false⟩

/-! ## Run-level progress updates (C8)

The five places `status.progress_pct` is written during a run
(`api/analysis.py` lines 308, 383, 575, 652, 977). -/

inductive ProgressPhase where
  | screening | visual | recipe | deepDive | visualization
  deriving DecidableEq, Repr

/-- The phase-specific floor of each update. -/
def progressFloor : ProgressPhase → ℚ
  | .screening => 20
  | .visual => 40
  | .recipe => 60
  | .deepDive => 80
  | .visualization => 100

/-- The update each phase applies to `status.progress_pct`: the four
analysis phases execute `max(status.progress_pct, floor)`; the
visualization step executes `status.progress_pct = 100.0`. -/
def progressUpdate : ProgressPhase → ℚ → ℚ
  | .screening, p => max p 20
  | .visual, p => max p 40
  | .recipe, p => max p 60
  | .deepDive, p => max p 80
  | .visualization, _ => 100

/-- The successive values `status.progress_pct` takes when the updates in
`l` fire in order, starting from the initial `progress_pct=0.0`. -/
def progressTrace (l : List ProgressPhase) : List ℚ :=
  l.scanl (fun p ph => progressUpdate ph p) 0

/-! ## Theorems -/

/-- C2: the active-run invariant fails under a race. In the interleaving
where both `start` calls pass the locked admission check before either
background task registers its run (`admitA, admitB, regA, regB`), both calls
are accepted, contradicting "exactly one call is accepted and the other is
rejected with conflict". The third conjunct shows the non-racing schedule
(`admitA, regA, admitB`) does produce the 409 the claim describes. -/
theorem C2_race_both_accepted :
    (runStartTrace [.admitA, .admitB, .regA, .regB]).a = .accepted
  ∧ (runStartTrace [.admitA, .admitB, .regA, .regB]).b = .accepted
  ∧ (runStartTrace [.admitA, .admitB, .regA, .regB]).aRegistered = true
  ∧ (runStartTrace [.admitA, .admitB, .regA, .regB]).bRegistered = true
  ∧ (runStartTrace [.admitA, .regA, .admitB]).b = .rejected409 := by
  decide

/-- C3: a `start` call for an existing paper with no running in-memory entry
while the current-month ledger sum has reached the monthly limit is rejected
with 402, touches no `analysis_results` rows, and schedules no run. -/
theorem C3_budget_admission (pid : ℕ) (s : ServerState)
    (hp : pid ∈ s.papers)
    (hr : s.runningEntry ≠ some "running")
    (hb : s.monthly_limit ≤ current_spending s) :
    (run_analysis pid s).response = .budgetExceeded402
  ∧ (run_analysis pid s).state.rows = s.rows
  ∧ (run_analysis pid s).taskScheduled = false := by
  have hsp : current_spending { s with runningEntry := none } = current_spending s :=
    rfl
  simp [run_analysis, hp, hr, hsp, hb]

/-- Concrete admission state for the C3 witness: one ledger row of 60 USD in
the current month (2026-10) against a 50 USD limit. -/
def c3State : ServerState :=
  { papers := [1]
  , runningEntry := none
  , rows := [⟨1, "screening", some 60, "2026-10-05T12:00:00"⟩]
  , monthly_limit := 50
  , year := 2026
  , month := 10 }

unseal Rat.add Rat.mul Rat.sub Rat.inv Rat.ofScientific in
/-- C3 witness: the admission theorem applied at `c3State`. -/
theorem C3_budget_admission_witness :
    (run_analysis 1 c3State).response = .budgetExceeded402
  ∧ (run_analysis 1 c3State).state.rows = c3State.rows
  ∧ (run_analysis 1 c3State).taskScheduled = false :=
  C3_budget_admission 1 c3State (by decide) (by decide) (by decide)

unseal Rat.add Rat.mul Rat.sub Rat.inv Rat.ofScientific in
/-- C6 counterexample: the pipeline-local cost function `_calc_cost` does not
fall back to the cheapest known tier for an unknown model — it falls back to
zero rates (`{"input": 0.0, "output": 0.0}`), while the cheapest tier in its
table (`gemini-3-flash-preview`) has input rate 0.50. -/
theorem C6_counterexample :
    _calc_cost "unknown-model" 1000000 0 = 0
  ∧ _calc_cost "gemini-3-flash-preview" 1000000 0 = 0.50
  ∧ (0 : ℚ) ≠ (0.50 : ℚ) := by
  decide

unseal Rat.add Rat.mul Rat.sub Rat.inv Rat.ofScientific in
/-- C6 (amended): for every model in `PRICING`, `calc_cost` at
`(1_000_000, 0)` tokens is exactly the per-1M input rate, and an unknown
model falls back to `gemini-3-flash-preview`, whose rates are minimal in the
table; for every model in the pipeline-local `_COST_TABLE`, `_calc_cost` at
`(1_000_000, 0)` is exactly its per-1M input rate, but its unknown-model
fallback is zero. Neither function can raise (both are total). -/
theorem C6_cost_rates (m : String) (tin tout : ℕ) :
    (∀ ri ro : ℚ, (m, (ri, ro)) ∈ PRICING → calc_cost m 1000000 0 = ri)
  ∧ (PRICING.lookup m = none →
      calc_cost m tin tout = calc_cost "gemini-3-flash-preview" tin tout)
  ∧ (∀ ri ro : ℚ, (m, (ri, ro)) ∈ PRICING → (0.10 : ℚ) ≤ ri ∧ (0.40 : ℚ) ≤ ro)
  ∧ (∀ ri ro : ℚ, (m, (ri, ro)) ∈ _COST_TABLE → _calc_cost m 1000000 0 = ri)
  ∧ (_COST_TABLE.lookup m = none → _calc_cost m tin tout = 0) := by
  refine ⟨?_, ?_, ?_, ?_, ?_⟩
  · intro ri ro h
    simp only [PRICING, List.mem_cons, List.mem_singleton, Prod.mk.injEq,
      List.not_mem_nil, or_false] at h
    rcases h with h | h | h | h | h | h <;>
      · obtain ⟨rfl, rfl, rfl⟩ := h
        decide
  · intro h
    simp only [calc_cost, h]
    rfl
  · intro ri ro h
    simp only [PRICING, List.mem_cons, List.mem_singleton, Prod.mk.injEq,
      List.not_mem_nil, or_false] at h
    rcases h with h | h | h | h | h | h <;>
      · obtain ⟨rfl, rfl, rfl⟩ := h
        constructor <;> norm_num
  · intro ri ro h
    simp only [_COST_TABLE, List.mem_cons, List.mem_singleton, Prod.mk.injEq,
      List.not_mem_nil, or_false] at h
    rcases h with h | h | h <;>
      · obtain ⟨rfl, rfl, rfl⟩ := h
        decide
  · intro h
    have h0 : (0.0 : ℚ) = 0 := by norm_num
    simp [_calc_cost, h, h0, pyRound]

unseal Rat.add Rat.mul Rat.sub Rat.inv Rat.ofScientific in
/-- C6 witness: the amended cost theorem applied at concrete models. -/
theorem C6_cost_rates_witness :
    calc_cost "gemini-3-pro-preview" 1000000 0 = 1.25
  ∧ calc_cost "some-unknown-model" 123 456 = calc_cost "gemini-3-flash-preview" 123 456
  ∧ _calc_cost "gemini-3-pro-preview" 1000000 0 = 2.00
  ∧ _calc_cost "some-unknown-model" 123 456 = 0 :=
  ⟨(C6_cost_rates "gemini-3-pro-preview" 0 0).1 1.25 5.00 (by decide),
   (C6_cost_rates "some-unknown-model" 123 456).2.1 (by decide),
   (C6_cost_rates "gemini-3-pro-preview" 0 0).2.2.2.1 2.00 12.00 (by decide),
   (C6_cost_rates "some-unknown-model" 123 456).2.2.2.2 (by decide)⟩

/-- Attempt outcomes in which the first `generate_content` call raises an
authentication-class error and the second succeeds. -/
def c7AuthOutcomes : ℕ → Except CallError ℕ :=
  fun k => if k = 0 then .error ⟨.authError, "API key invalid"⟩ else .ok 7

/-- C7 counterexample: `GeminiClient._call` catches the base `Exception`, so
an auth-class error does not propagate immediately — the loop sleeps
`2 ** 0` seconds and retries, and here the call succeeds on attempt 2. -/
theorem C7_counterexample :
    c7AuthOutcomes 0 = .error ⟨.authError, "API key invalid"⟩
  ∧ geminiCall c7AuthOutcomes = ⟨.ok 7, 2, [1]⟩ :=
  ⟨rfl, rfl⟩

/-- C7 (amended): the retry loop makes up to 3 attempts with `2 ** attempt`
backoff between attempts for every error class alike, returns the first
success, and after three failures raises a `RuntimeError` wrapping the last
error; no error class propagates without retry. -/
theorem C7_retry_policy (outcomes : ℕ → Except CallError ℕ) (r : ℕ)
    (e0 e1 e2 : CallError) :
    (outcomes 0 = .ok r → geminiCall outcomes = ⟨.ok r, 1, []⟩)
  ∧ (outcomes 0 = .error e0 → outcomes 1 = .ok r →
      geminiCall outcomes = ⟨.ok r, 2, [1]⟩)
  ∧ (outcomes 0 = .error e0 → outcomes 1 = .error e1 → outcomes 2 = .ok r →
      geminiCall outcomes = ⟨.ok r, 3, [1, 2]⟩)
  ∧ (outcomes 0 = .error e0 → outcomes 1 = .error e1 → outcomes 2 = .error e2 →
      geminiCall outcomes =
        ⟨.error ("Gemini call failed after 3 attempts: " ++ e2.msg), 3, [1, 2]⟩) := by
  refine ⟨?_, ?_, ?_, ?_⟩ <;> intros <;> simp [geminiCall, *]

/-- Attempt outcomes in which every attempt raises a rate-limit error. -/
def c7AllFail : ℕ → Except CallError ℕ :=
  fun _ => .error ⟨.rateLimit, "429 rate limited"⟩

/-- C7 witness: the retry theorem applied to three rate-limit failures. -/
theorem C7_retry_policy_witness :
    geminiCall c7AllFail =
      ⟨.error ("Gemini call failed after 3 attempts: " ++ "429 rate limited"),
        3, [1, 2]⟩ :=
  (C7_retry_policy c7AllFail 0 ⟨.rateLimit, "429 rate limited"⟩
    ⟨.rateLimit, "429 rate limited"⟩ ⟨.rateLimit, "429 rate limited"⟩).2.2.2
    rfl rfl rfl

/-- C5 counterexample: on a response that is not valid JSON,
`AnalysisPipeline._parse_json_response` synthesizes a fallback payload whose
only field is `raw_response` — it carries the text but no parse-error
message, contradicting "a fallback payload containing the original response
text plus a non-empty parse-error message". -/
theorem C5_counterexample :
    _parse_json_response "not json at all"
      = Json.obj [("raw_response", Json.str "not json at all")]
  ∧ (match _parse_json_response "not json at all" with
      | .obj kvs => kvs.map Prod.fst
      | _ => []) = ["raw_response"] :=
  ⟨rfl, rfl⟩

unseal Rat.add Rat.mul Rat.sub Rat.inv Rat.ofScientific in
/-- C5 (amended): all three response cleaners strip Markdown code fences, so
`` ```json\n{"a":1}\n``` `` parses to `{"a":1}` in each; when the cleaned
text is not valid JSON, the API phase executors store
`{"_raw": cleaned, "_parse_error": msg}` with a non-empty message and still
mark the phase `completed`, and the gateway `_extract_json` returns
`{"_raw": original, "_parse_error": msg}` likewise — but
`AnalysisPipeline._parse_json_response` returns only
`{"raw_response": cleaned}` with no parse-error message. -/
theorem C5_parse_fallbacks (s : String) (e : JsonErr) :
    (jsonParse (_clean_llm_json s) = .error e →
      apiValidateResponse s =
        ⟨Json.obj [("_raw", Json.str (_clean_llm_json s)),
                   ("_parse_error", Json.str e.message)],
         some e.message, "completed"⟩
      ∧ e.message ≠ "")
  ∧ (jsonParse (pipelineStrip s) = .error e →
      _parse_json_response s
        = Json.obj [("raw_response", Json.str (pipelineStrip s))])
  ∧ (∀ c, extractStrip s = some c → jsonParse c = .error e →
      _extract_json s = .ok (Json.obj [("_raw", Json.str s),
        ("_parse_error", Json.str e.message)])
      ∧ e.message ≠ "")
  ∧ (apiValidateResponse "```json\n\x7b\"a\":1\x7d\n```").storedPayload
      = Json.obj [("a", Json.num 1)]
  ∧ (apiValidateResponse "```json\n\x7b\"a\":1\x7d\n```").phaseStatus = "completed"
  ∧ _parse_json_response "```json\n\x7b\"a\":1\x7d\n```" = Json.obj [("a", Json.num 1)]
  ∧ _extract_json "```json\n\x7b\"a\":1\x7d\n```"
      = .ok (Json.obj [("a", Json.num 1)]) := by
  refine ⟨?_, ?_, ?_, rfl, rfl, rfl, rfl⟩
  · intro h
    exact ⟨by simp [apiValidateResponse, h], by cases e <;> decide⟩
  · intro h
    simp [_parse_json_response, h]
  · intro c hc hp
    exact ⟨by simp [_extract_json, hc, hp], by cases e <;> decide⟩

unseal Rat.add Rat.mul Rat.sub Rat.inv Rat.ofScientific in
/-- C5 witness: the fallback theorem applied to the concrete non-JSON
response `totally not json`. -/
theorem C5_parse_fallbacks_witness :
    apiValidateResponse "totally not json" =
      ⟨Json.obj [("_raw", Json.str (_clean_llm_json "totally not json")),
                 ("_parse_error", Json.str JsonErr.expectingValue.message)],
       some JsonErr.expectingValue.message, "completed"⟩
  ∧ JsonErr.expectingValue.message ≠ "" :=
  (C5_parse_fallbacks "totally not json" .expectingValue).1 rfl

/-- Each progress update keeps the value in `[0, 100]`, never lowers it, and
agrees with "max of current value and the phase floor" on that range. -/
theorem progressUpdate_mono (ph : ProgressPhase) (p : ℚ)
    (h0 : 0 ≤ p) (h1 : p ≤ 100) :
    p ≤ progressUpdate ph p ∧ 0 ≤ progressUpdate ph p
      ∧ progressUpdate ph p ≤ 100
      ∧ progressUpdate ph p = max p (progressFloor ph) := by
  cases ph
  case screening =>
    exact ⟨le_max_left _ _, le_trans h0 (le_max_left _ _),
      max_le h1 (by norm_num), rfl⟩
  case visual =>
    exact ⟨le_max_left _ _, le_trans h0 (le_max_left _ _),
      max_le h1 (by norm_num), rfl⟩
  case recipe =>
    exact ⟨le_max_left _ _, le_trans h0 (le_max_left _ _),
      max_le h1 (by norm_num), rfl⟩
  case deepDive =>
    exact ⟨le_max_left _ _, le_trans h0 (le_max_left _ _),
      max_le h1 (by norm_num), rfl⟩
  case visualization =>
    exact ⟨h1, show (0 : ℚ) ≤ 100 by norm_num, le_refl _, (max_eq_right h1).symm⟩

/-- The successive progress values are non-decreasing from any in-range
start. -/
theorem chain_progress_scanl (l : List ProgressPhase) (p : ℚ)
    (h0 : 0 ≤ p) (h1 : p ≤ 100) :
    List.Chain' (· ≤ ·) (l.scanl (fun q ph => progressUpdate ph q) p) := by
  induction l generalizing p with
  | nil => simp
  | cons x xs ih =>
    obtain ⟨hle, hge0, hle100, _⟩ := progressUpdate_mono x p h0 h1
    have hch := ih (progressUpdate x p) hge0 hle100
    rw [List.scanl_cons]
    refine List.chain'_cons'.mpr ⟨?_, hch⟩
    intro b hb
    cases xs <;> simp [List.scanl] at hb <;> exact hb ▸ hle

/-- C8: over one run's lifetime the progress value is non-decreasing — every
update sequence the run can perform yields a monotone trace from the initial
0 — and on the reachable range `[0, 100]` each update (including the
visualization step's direct `= 100.0` assignment) equals the monotonic max
with its phase floor. -/
theorem C8_progress_monotone (l : List ProgressPhase) (ph : ProgressPhase)
    (p : ℚ) (h0 : 0 ≤ p) (h1 : p ≤ 100) :
    List.Chain' (· ≤ ·) (progressTrace l)
  ∧ progressUpdate ph p = max p (progressFloor ph) :=
  ⟨chain_progress_scanl l 0 (by norm_num) (by norm_num),
   (progressUpdate_mono ph p h0 h1).2.2.2⟩

/-- C8 witness: the monotonicity theorem applied to the full run order and
the visualization update at progress 40. -/
theorem C8_progress_monotone_witness :
    List.Chain' (· ≤ ·)
      (progressTrace [.screening, .visual, .recipe, .deepDive, .visualization])
  ∧ progressUpdate .visualization 40 = max 40 (progressFloor .visualization) :=
  C8_progress_monotone [.screening, .visual, .recipe, .deepDive, .visualization]
    .visualization 40 (by norm_num) (by norm_num)

/-- A run in which the Screening model call raises and every other phase
body would succeed, with no cancellation requested. -/
def c1FailInput : OrchInput :=
  { screening := .error "RuntimeError: Gemini call failed after 3 attempts"
  , visual := .ok (), recipe := .ok (), deepDive := .ok ()
  , cancelAfterLoad := false, cancelAfterPhase12 := false
  , cancelAfterRecipe := false, cancelAfterDeepDive := false
  , cancelAtEnd := false }

/-- C1 counterexample: in the API background orchestrator a phase exception
is not caught locally — it reaches the run-level handler, which marks the
run and the paper `error` even though the Visual phase succeeded,
contradicting "the run's terminal status is `completed` whenever at least
one phase succeeded". -/
theorem C1_counterexample :
    (_run_full_analysis c1FailInput).overall_status = "error"
  ∧ (_run_full_analysis c1FailInput).paper_status = "error"
  ∧ "visual" ∈ (_run_full_analysis c1FailInput).phaseCompleted := by
  decide

/-- C1 (amended): in `AnalysisPipeline.run_full_analysis` each phase's
exception is caught locally and recorded as an `error` PhaseResult, the
terminal status is `error` exactly when every phase errored and `completed`
whenever at least one phase succeeded; in particular Screening and Visual
failing with Recipe succeeding yields `completed`. -/
theorem C1_pipeline_status_policy (s v r d : Except String Json) :
    ((run_full_analysis s v r d).status = "error" ↔
      s.isOk = false ∧ v.isOk = false ∧ r.isOk = false ∧ d.isOk = false)
  ∧ ((run_full_analysis s v r d).status = "completed" ↔
      (s.isOk = true ∨ v.isOk = true ∨ r.isOk = true ∨ d.isOk = true))
  ∧ (run_full_analysis (.error "screening failed") (.error "visual failed")
      (.ok (Json.obj [])) (.error "deep dive failed")).status = "completed" := by
  refine ⟨?_, ?_, rfl⟩ <;>
    cases s <;> cases v <;> cases r <;> cases d <;>
      simp [run_full_analysis, runPhase, Except.isOk, Except.toBool]

/-- C4: if the cancellation flag is observed set at the boundary between
phase 2 (Visual) and phase 3 (Recipe) of a run whose first two phases ran
normally, then Recipe, Deep-Dive and Visualization never execute and both
the run status and the persisted document status become `cancelled`; and
`cancel` with no cancellation event and no running in-memory entry returns
404. -/
theorem C4_cancel_between_phase2_and_3 (inp : OrchInput) (st : String)
    (hs : inp.screening.isOk = true) (hv : inp.visual.isOk = true)
    (h0 : inp.cancelAfterLoad = false)
    (hc : inp.cancelAfterPhase12 = true)
    (hst : st ≠ "running") :
    "recipe" ∉ (_run_full_analysis inp).executed
  ∧ "deep_dive" ∉ (_run_full_analysis inp).executed
  ∧ "visualization" ∉ (_run_full_analysis inp).executed
  ∧ (_run_full_analysis inp).overall_status = "cancelled"
  ∧ (_run_full_analysis inp).paper_status = "cancelled"
  ∧ cancel_analysis false (some st) = (404, "not_found")
  ∧ cancel_analysis false none = (404, "not_found") := by
  obtain ⟨s, v, r, d, c0, c1, c2, c3, c4⟩ := inp
  simp only at hs hv h0 hc
  subst h0 hc
  cases s <;> cases v <;>
    simp_all [_run_full_analysis, cancel_analysis, Except.isOk, Except.toBool]

/-- A run whose four phase bodies succeed and whose cancellation flag is
first observed at the phase 2 / phase 3 boundary. -/
def c4Input : OrchInput :=
  { screening := .ok (), visual := .ok (), recipe := .ok (), deepDive := .ok ()
  , cancelAfterLoad := false, cancelAfterPhase12 := true
  , cancelAfterRecipe := false, cancelAfterDeepDive := false
  , cancelAtEnd := false }

/-- C4 witness: the cancellation theorem applied at `c4Input` with a stale
`completed` in-memory entry on the cancel endpoint. -/
theorem C4_cancel_witness :
    "recipe" ∉ (_run_full_analysis c4Input).executed
  ∧ "deep_dive" ∉ (_run_full_analysis c4Input).executed
  ∧ "visualization" ∉ (_run_full_analysis c4Input).executed
  ∧ (_run_full_analysis c4Input).overall_status = "cancelled"
  ∧ (_run_full_analysis c4Input).paper_status = "cancelled"
  ∧ cancel_analysis false (some "completed") = (404, "not_found")
  ∧ cancel_analysis false none = (404, "not_found") :=
  C4_cancel_between_phase2_and_3 c4Input "completed" rfl rfl rfl rfl (by decide)

/-- Both branches of `_keyword_classify` produce `method = "keyword"`. -/
theorem keyword_classify_method (title abstract : String) :
    (_keyword_classify title abstract).method = "keyword" := by
  unfold _keyword_classify
  dsimp only
  split <;> rfl

/-- C9: whenever the keyword step's confidence is at least 0.7 and the gap
between the top and second normalized scores is at least 0.15, `classify`
returns the keyword result directly (`method = "keyword"`) and control never
reaches `_semantic_classify` — no semantic-classifier call is made. -/
theorem C9_keyword_gate (title abstract : String)
    (hconf : (0.7 : ℚ) ≤ (_keyword_classify title abstract).confidence)
    (hgap : (0.15 : ℚ) ≤ topGap title abstract) :
    classify title abstract = .keywordDirect (_keyword_classify title abstract)
  ∧ (_keyword_classify title abstract).method = "keyword" := by
  refine ⟨?_, keyword_classify_method title abstract⟩
  unfold topGap at hgap
  simp only [classify]
  rw [if_pos hconf]
  cases hs : sortDescQ ((_keyword_classify title abstract).all_scores.map Prod.snd) with
  | nil => rfl
  | cons s0 tail =>
    cases tail with
    | nil => rfl
    | cons s1 rest =>
      rw [hs] at hgap
      exact if_neg (not_lt.mpr hgap)

unseal Rat.add Rat.mul Rat.sub Rat.inv Rat.ofScientific in
/-- C9 witness: a title containing three matched optics keywords (`laser`,
`beam`, `wavelength`) classifies as `optics` by the keyword step alone, with
confidence at least 0.7 and no semantic call. -/
theorem C9_keyword_gate_witness :
    ((0.7 : ℚ) ≤
        (_keyword_classify "Laser beam wavelength measurement" "").confidence
      ∧ 3 ≤ (_keyword_classify "Laser beam wavelength measurement"
          "").keyword_matches.length
      ∧ (_keyword_classify "Laser beam wavelength measurement" "").domain
          = "optics")
  ∧ (classify "Laser beam wavelength measurement" ""
      = .keywordDirect (_keyword_classify "Laser beam wavelength measurement" "")
    ∧ (_keyword_classify "Laser beam wavelength measurement" "").method
        = "keyword") :=
  ⟨⟨by decide, by decide, by decide⟩,
   C9_keyword_gate "Laser beam wavelength measurement" "" (by decide) (by decide)⟩

/-- C10: `override` returns a `ValueError` (modelled `.error`) exactly for
domain strings outside the four known keys, and every successful override
carries confidence 1.0, method `manual`, and `needs_confirmation = false`. -/
theorem C10_override_domains (d : String) :
    (d ∉ ["optics", "bio", "ai_ml", "ee"] → ∃ msg, override d = .error msg)
  ∧ (∀ res, override d = .ok res →
      d ∈ ["optics", "bio", "ai_ml", "ee"]
      ∧ res.confidence = 1 ∧ res.method = "manual"
      ∧ res.needs_confirmation = false) := by
  constructor
  · intro hnot
    simp only [List.mem_cons, List.not_mem_nil, or_false, not_or] at hnot
    obtain ⟨h1, h2, h3, h4⟩ := hnot
    have hl : DOMAINS.lookup d = none := by
      have b1 : (d == "optics") = false := beq_eq_false_iff_ne.mpr h1
      have b2 : (d == "bio") = false := beq_eq_false_iff_ne.mpr h2
      have b3 : (d == "ai_ml") = false := beq_eq_false_iff_ne.mpr h3
      have b4 : (d == "ee") = false := beq_eq_false_iff_ne.mpr h4
      simp [DOMAINS, List.lookup, b1, b2, b3, b4]
    refine ⟨"Unknown domain: " ++ d ++ ". Valid domains: optics, bio, ai_ml, ee", ?_⟩
    unfold override
    rw [hl]
  · intro res hres
    by_cases h1 : d = "optics"
    · subst h1
      obtain rfl := Except.ok.inj hres
      exact ⟨by simp, rfl, rfl, rfl⟩
    by_cases h2 : d = "bio"
    · subst h2
      obtain rfl := Except.ok.inj hres
      exact ⟨by simp, rfl, rfl, rfl⟩
    by_cases h3 : d = "ai_ml"
    · subst h3
      obtain rfl := Except.ok.inj hres
      exact ⟨by simp, rfl, rfl, rfl⟩
    by_cases h4 : d = "ee"
    · subst h4
      obtain rfl := Except.ok.inj hres
      exact ⟨by simp, rfl, rfl, rfl⟩
    · exfalso
      have hl : DOMAINS.lookup d = none := by
        have b1 : (d == "optics") = false := beq_eq_false_iff_ne.mpr h1
        have b2 : (d == "bio") = false := beq_eq_false_iff_ne.mpr h2
        have b3 : (d == "ai_ml") = false := beq_eq_false_iff_ne.mpr h3
        have b4 : (d == "ee") = false := beq_eq_false_iff_ne.mpr h4
        simp [DOMAINS, List.lookup, b1, b2, b3, b4]
      unfold override at hres
      rw [hl] at hres
      exact Except.noConfusion hres

/-- C10 witness: the override theorem applied at the unknown key
`chemistry` and at the known key `optics`. -/
theorem C10_override_domains_witness :
    (∃ msg, override "chemistry" = .error msg)
  ∧ ("optics" ∈ ["optics", "bio", "ai_ml", "ee"]
      ∧ ({ domain := "optics", display_name := "Optics & Photonics",
           display_name_ko := "광학/포토닉스", agent_name := "photon",
           confidence := 1, method := "manual", needs_confirmation := false,
           keyword_matches := [], all_scores := [] } : DomainResult).confidence = 1
      ∧ ({ domain := "optics", display_name := "Optics & Photonics",
           display_name_ko := "광학/포토닉스", agent_name := "photon",
           confidence := 1, method := "manual", needs_confirmation := false,
           keyword_matches := [], all_scores := [] } : DomainResult).method = "manual"
      ∧ ({ domain := "optics", display_name := "Optics & Photonics",
           display_name_ko := "광학/포토닉스", agent_name := "photon",
           confidence := 1, method := "manual", needs_confirmation := false,
           keyword_matches := [], all_scores := [] } : DomainResult).needs_confirmation
          = false) :=
  ⟨(C10_override_domains "chemistry").1 (by decide),
   (C10_override_domains "optics").2 _ rfl⟩

end Sasoo
